import Mathlib

/-!
Shallow embedding of `WebsiteStatusChecker/src/main.rs` and verification of
the specification claims about it.

Modelling conventions:
* HTTP status codes are `Nat` (the Rust code uses `u16`; all codes fit).
* `Result<u16, String>` becomes `Except String Nat`.
* Network behaviour is an oracle: a prober outcome function from attempt
  index to `Except String Nat`, and a per-attempt duration function (ms).
* Wall-clock time is modelled in milliseconds: each probe attempt `k`
  takes `dur k` ms and each inter-attempt sleep contributes its literal
  100 ms, mirroring `Instant::now()` / `start_time.elapsed()`.
-/

deriving instance DecidableEq for Except

/-- Rust struct `WebsiteStatus` of `main.rs`: one outcome per URL. -/
structure WebsiteStatus where
  url : String
  action_status : Except String Nat
  response_time : Nat
  timestamp : Nat
  deriving Repr, DecidableEq

/-- Behaviour of the network for one URL: `outcome k` is what the
`client.get(url).timeout(t).send()` call returns on attempt `k`
(`.ok code` for any completed HTTP exchange, `.error e` for a transport
failure), and `dur k` is how long attempt `k` takes in milliseconds. -/
structure ProbeModel where
  outcome : Nat → Except String Nat
  dur : Nat → Nat

/-- Trace of one run of the retry loop inside `check_website`:
the terminal `result`, the total number of probe `attempts` made, and the
list of sleep durations (ms) executed between attempts, in order. -/
structure CheckRun where
  result : Except String Nat
  attempts : Nat
  sleeps : List Nat
  deriving Repr, DecidableEq

/-- The `loop` of Rust `check_website`, entered at attempt index `attempt`
with `remaining = retries - attempt` retries left.  Mirrors:
`if result.is_ok() || attempt >= retries \x7b return \x7d` else
`attempt += 1; sleep(100ms)`. -/
def checkFrom (outcome : Nat → Except String Nat) (attempt remaining : Nat) :
    CheckRun :=
  match outcome attempt, remaining with
    | .ok c, _ => { result := .ok c, attempts := attempt + 1, sleeps := [] }
    | .error e, 0 => { result := .error e, attempts := attempt + 1, sleeps := [] }
    | .error _, r + 1 =>
      let rest := checkFrom outcome (attempt + 1) r
      { result := rest.result, attempts := rest.attempts, sleeps := 100 :: rest.sleeps }

/-- Rust `check_website`: runs the retry loop from attempt 0, measures
`response_time` from the start of the first attempt to the completion of
the final attempt (all attempt durations plus all sleeps), and stamps the
completion instant (`start` is the model instant the first attempt began). -/
def check_website (p : ProbeModel) (url : String) (retries : Nat) (start : Nat) :
    WebsiteStatus :=
  let run := checkFrom p.outcome 0 retries
  let elapsed := ((List.range run.attempts).map p.dur).sum + run.sleeps.sum
  { url := url, action_status := run.result,
    response_time := elapsed, timestamp := start + elapsed }

/-- Rust slice `chunks(n)`: contiguous chunks of size `n`, the last chunk
possibly shorter, no chunks for the empty slice.  (Rust panics on `n = 0`;
the model returns `[]` there, and every claim assumes `n ≥ 1`.) -/
def chunks : Nat → List α → List (List α)
  | _, [] => []
  | 0, _ :: _ => []
  | n + 1, x :: xs => ((x :: xs).take (n + 1)) :: chunks (n + 1) (xs.drop n)
termination_by _ l => l.length
decreasing_by
  simp only [List.length_drop, List.length_cons]
  omega

/-- Number of worker threads `run_checks` spawns: one `thread::spawn` per
element of `urls.chunks(workers)`. -/
def numThreads (workers : Nat) (urls : List String) : Nat :=
  (chunks workers urls).length

/-- Rust `run_checks`: splits `urls` with `urls.chunks(workers)`, spawns one
worker per chunk, each worker probing its chunk sequentially and sending
each `WebsiteStatus` into the channel; after joining all workers the channel
is drained.  The model collects results in the canonical chunk order (the
real channel order is an interleaving, i.e. a permutation of this; the
claims about the result set are order-insensitive). -/
def run_checks (outcome : String → Nat → Except String Nat)
    (dur : String → Nat → Nat) (urls : List String)
    (workers retries : Nat) : List WebsiteStatus :=
  ((chunks workers urls).map (fun chunk =>
    chunk.map (fun u => check_website ⟨outcome u, dur u⟩ u retries 0))).flatten

/-- Body of the `filter_map` closure in Rust `read_urls_from_file`, applied
to a successfully read line: trim it, keep it only when non-empty and not
starting with `#`. -/
def keepLine (s : String) : Option String :=
  let t := s.trim
  if t.isEmpty || t.startsWith "#" then none else some t

/-- Rust `read_urls_from_file`, after the file has been opened.  The file
is a list of line reads; `none` models a line whose read failed (I/O error
or invalid UTF-8), which `line.ok()?` silently skips.  A successfully read
line is trimmed and kept only when non-empty and not starting with `#`. -/
def read_urls_from_file (lines : List (Option String)) : List String :=
  lines.filterMap (fun line => line.bind keepLine)

/-- Debug rendering of a model duration in milliseconds.  Rust renders
`Duration` with value-dependent units (`100ms`, `1.5s`, …); the model fixes
the sub-second form `Nms`, exact for sub-second durations and irrelevant to
every claim beyond being a string. -/
def durationDebug (ms : Nat) : String := toString ms ++ "ms"

/-- Debug rendering of a model instant (milliseconds since the model
epoch), following the shape of Rust `SystemTime` debug output. -/
def timestampDebug (t : Nat) : String :=
  "SystemTime \x7b tv_sec: " ++ toString (t / 1000) ++
    ", tv_nsec: " ++ toString (t % 1000 * 1000000) ++ " \x7d"

/-- One element pushed by the loop body of `save_results_to_json`,
mirroring the `format!` template including its trailing comma; no escaping
of the interpolated strings is performed, exactly as in the source. -/
def resultLine (status : WebsiteStatus) : String :=
  "\x7b\"url\":\"" ++ status.url ++ "\", \"status\":" ++
    (match status.action_status with
     | .ok code => toString code
     | .error err => "\"" ++ err ++ "\"") ++
    ", \"response_time\":\"" ++ durationDebug status.response_time ++
    "\", \"timestamp\":\"" ++ timestampDebug status.timestamp ++ "\"\x7d,"

/-- Rust `save_results_to_json`: starts from `"["`, appends one
`resultLine` per status, then `pop()`s the final character (intended to be
the trailing comma) and pushes `]`. -/
def save_results_to_json (statuses : List WebsiteStatus) : String :=
  ((statuses.foldl (fun acc s => acc ++ resultLine s) "[").dropRight 1) ++ "]"

/-- Rust `main`, with its fallible I/O as oracles: `openResult` is `none`
when `File::open("urls.txt")` fails (the `expect` panics and the process
aborts before anything else runs) and otherwise carries the line reads;
`writeOk` is whether `fs::write("status.json", …)` succeeds (its `expect`
panics after all checks are done).  The returned trace is the list of URLs
whose probe sequences ran, in canonical order; an `.error` value is the
panic message of the aborting `expect`. -/
def mainModel (openResult : Option (List (Option String)))
    (outcome : String → Nat → Except String Nat) (dur : String → Nat → Nat)
    (workers retries : Nat) (writeOk : Bool) :
    Except String (List WebsiteStatus) × List String :=
  match openResult with
  | none => (.error "Failed to open file", [])
  | some lines =>
    let urls := read_urls_from_file lines
    let results := run_checks outcome dur urls workers retries
    let probed := results.map (fun s => s.url)
    if writeOk then (.ok results, probed)
    else (.error "Failed to write JSON file", probed)

/-! ### Lemmas about the retry loop -/

/-- Entering the loop at attempt `a` with `r` retries left makes at most
`r + 1` further probe calls. -/
lemma checkFrom_attempts_le (outcome : Nat → Except String Nat) :
    ∀ r a, (checkFrom outcome a r).attempts ≤ a + r + 1 := by
  intro r
  induction r with
  | zero =>
    intro a
    cases h : outcome a with
    | ok c => rw [checkFrom.eq_def, h]
    | error e => rw [checkFrom.eq_def, h]
  | succ r ih =>
    intro a
    cases h : outcome a with
    | ok c => rw [checkFrom.eq_def, h]; dsimp only; omega
    | error e =>
      have hr := ih (a + 1)
      rw [checkFrom.eq_def, h]
      dsimp only
      omega

/-- If every attempt fails, the loop runs all `r + 1` attempts, sleeps
between each pair, and surfaces the last error. -/
lemma checkFrom_allfail (outcome : Nat → Except String Nat) (errs : Nat → String)
    (h : ∀ k, outcome k = .error (errs k)) :
    ∀ r a, checkFrom outcome a r =
      { result := .error (errs (a + r)), attempts := a + r + 1,
        sleeps := List.replicate r 100 } := by
  intro r
  induction r with
  | zero =>
    intro a
    rw [checkFrom.eq_def, h a]
    dsimp only
    simp
  | succ r ih =>
    intro a
    have he : a + 1 + r = a + (r + 1) := by omega
    rw [checkFrom.eq_def, h a]
    dsimp only
    rw [ih (a + 1), he, List.replicate_succ]

/-- If the first `n` attempts fail and attempt `n` completes an HTTP
exchange with code `c`, and `n` is within the retry budget, the loop stops
right there: result `.ok c`, exactly `n + 1` attempts, and exactly one
100 ms sleep before each of the `n` retries. -/
lemma checkFrom_first_ok (outcome : Nat → Except String Nat) (errs : Nat → String)
    (c : Nat) :
    ∀ n a r, (∀ k, k < n → outcome (a + k) = .error (errs (a + k))) →
      outcome (a + n) = .ok c → n ≤ r →
      checkFrom outcome a r =
        { result := .ok c, attempts := a + n + 1,
          sleeps := List.replicate n 100 } := by
  intro n
  induction n with
  | zero =>
    intro a r _ hok _
    simp only [Nat.add_zero] at hok
    rw [checkFrom.eq_def, hok]
    dsimp only
    simp
  | succ n ih =>
    intro a r hfail hok hle
    obtain ⟨r2, rfl⟩ : ∃ r2, r = r2 + 1 := ⟨r - 1, by omega⟩
    have h0 : outcome a = .error (errs a) := by
      have := hfail 0 (Nat.succ_pos n)
      simpa using this
    have hrest := ih (a + 1) r2
      (fun k hk => by
        have hh := hfail (k + 1) (by omega)
        have he : a + (k + 1) = a + 1 + k := by omega
        rw [he] at hh
        exact hh)
      (by
        have he : a + 1 + n = a + (n + 1) := by omega
        rw [he]; exact hok)
      (by omega)
    have he : a + 1 + n + 1 = a + (n + 1) + 1 := by omega
    rw [checkFrom.eq_def, h0]
    dsimp only
    rw [hrest]
    dsimp only
    rw [he, List.replicate_succ]

/-! ### Lemmas about chunking and dispatch -/

/-- For a positive chunk size, concatenating the chunks gives back the
original list. -/
lemma chunks_flatten (n : Nat) (l : List α) :
    (chunks (n + 1) l).flatten = l := by
  have H : ∀ k (l : List α), l.length ≤ k → (chunks (n + 1) l).flatten = l := by
    intro k
    induction k with
    | zero =>
      intro l hl
      have : l = [] := List.length_eq_zero.mp (Nat.le_zero.mp hl)
      subst this
      simp [chunks]
    | succ k ih =>
      intro l hl
      match l with
      | [] => simp [chunks]
      | x :: xs =>
        rw [chunks]
        simp only [List.flatten_cons]
        rw [ih (xs.drop n) (by simp at hl ⊢; omega)]
        simp [List.take_cons]
  exact H l.length l le_rfl

/-- The URLs of the collected results, in canonical order, are exactly the
input URLs: dispatch probes every URL exactly once. -/
lemma run_checks_map_url (outcome : String → Nat → Except String Nat)
    (dur : String → Nat → Nat) (urls : List String) (w retries : Nat) :
    (run_checks outcome dur urls (w + 1) retries).map (fun s => s.url) =
      urls := by
  have key : ∀ cs : List (List String),
      ((cs.map (fun chunk =>
        chunk.map (fun u => check_website ⟨outcome u, dur u⟩ u retries 0))).flatten).map
          (fun s => s.url) = cs.flatten := by
    intro cs
    induction cs with
    | nil => simp
    | cons c cs ih =>
      simp only [List.map_cons, List.flatten_cons, List.map_append, ih,
        List.map_map]
      congr 1
      have hfun : ((fun s : WebsiteStatus => s.url) ∘ fun u =>
          check_website ⟨outcome u, dur u⟩ u retries 0) = fun u => u := rfl
      rw [hfun]
      exact List.map_id' c
  calc (run_checks outcome dur urls (w + 1) retries).map (fun s => s.url)
      = (chunks (w + 1) urls).flatten := key (chunks (w + 1) urls)
    _ = urls := chunks_flatten w urls

/-! ### Claim theorems -/

/-- A ten-URL input, used to exhibit the chunking behaviour of
`run_checks`. -/
def urls10 : List String :=
  ["u01", "u02", "u03", "u04", "u05", "u06", "u07", "u08", "u09", "u10"]

/-- Claim C1: the claim says `run_checks` splits K URLs into chunks of size
ceil(K / W), one chunk per worker, with never more than W worker threads.
The code instead calls `urls.chunks(workers)`, i.e. chunk SIZE = W, so for
K = 10 URLs and W = 2 it builds five chunks of size two — spawning five
worker threads, not at most two — and no chunk has the claimed size
ceil(10 / 2) = 5. -/
theorem run_checks_chunk_size_is_worker_count :
    numThreads 2 urls10 = 5 ∧
    ¬ numThreads 2 urls10 ≤ 2 ∧
    (chunks 2 urls10).map List.length = [2, 2, 2, 2, 2] ∧
    (urls10.length + 2 - 1) / 2 = 5 := by
  refine ⟨?_, ?_, ?_, ?_⟩ <;> simp [numThreads, chunks, urls10]

/-- Claim C2: on an empty URL list the run produces zero results and spawns
zero worker threads (both as claimed), but `save_results_to_json` applied
to the empty result set returns the string `]`, not the empty JSON array
`[]`: the `pop()` meant to drop a trailing comma removes the opening
bracket instead. -/
theorem empty_input_results_and_json :
    run_checks (fun _ _ => .error "unreachable") (fun _ _ => 0) [] 4 0 = [] ∧
    numThreads 4 ([] : List String) = 0 ∧
    save_results_to_json [] = "]" ∧
    save_results_to_json [] ≠ "[]" := by
  refine ⟨?_, ?_, ?_, ?_⟩
  · simp [run_checks, chunks]
  · simp [numThreads, chunks]
  · rfl
  · decide

/-- Claim C3: for a non-empty URL list and any worker count W ≥ 1,
`run_checks` returns exactly one result per input URL, and the multiset of
`url` fields of the results is exactly the multiset of input URLs. -/
theorem run_checks_complete (outcome : String → Nat → Except String Nat)
    (dur : String → Nat → Nat) (urls : List String) (workers retries : Nat)
    (_hu : urls ≠ []) (hw : 1 ≤ workers) :
    (run_checks outcome dur urls workers retries).length = urls.length ∧
    List.Perm ((run_checks outcome dur urls workers retries).map (fun s => s.url))
      urls := by
  obtain ⟨w, rfl⟩ : ∃ w, workers = w + 1 := ⟨workers - 1, by omega⟩
  have hmap := run_checks_map_url outcome dur urls w retries
  constructor
  · have := congrArg List.length hmap
    simpa using this
  · rw [hmap]

/-- Witness for C3: three URLs, two workers, everything succeeding. -/
theorem run_checks_complete_witness :
    (run_checks (fun _ _ => .ok 200) (fun _ _ => 0) ["a", "b", "c"] 2 0).length = 3 ∧
    List.Perm ((run_checks (fun _ _ => .ok 200) (fun _ _ => 0)
      ["a", "b", "c"] 2 0).map (fun s => s.url)) ["a", "b", "c"] := by
  have h := run_checks_complete (fun _ _ => .ok 200) (fun _ _ => 0)
    ["a", "b", "c"] 2 0 (by decide) (by omega)
  simpa using h

/-- Claim C4: for any prober behaviour the retry loop of `check_website`
makes at most `retries + 1` probe attempts and ends in exactly one terminal
state (a success code or an error); and when every attempt fails it ends in
the exhausted-failure state, carrying the last error, after exactly
`retries + 1` attempts. -/
theorem check_website_attempt_bound (outcome : Nat → Except String Nat)
    (retries : Nat) :
    (checkFrom outcome 0 retries).attempts ≤ retries + 1 ∧
    ((∃ c, (checkFrom outcome 0 retries).result = .ok c) ∨
      (∃ e, (checkFrom outcome 0 retries).result = .error e)) ∧
    (∀ errs : Nat → String, (∀ k, outcome k = .error (errs k)) →
      (checkFrom outcome 0 retries).attempts = retries + 1 ∧
      (checkFrom outcome 0 retries).result = .error (errs retries)) := by
  refine ⟨?_, ?_, ?_⟩
  · have := checkFrom_attempts_le outcome retries 0
    omega
  · cases h : (checkFrom outcome 0 retries).result with
    | ok c => exact Or.inl ⟨c, rfl⟩
    | error e => exact Or.inr ⟨e, rfl⟩
  · intro errs h
    have := checkFrom_allfail outcome errs h retries 0
    rw [this]
    simp

/-- Witness for C4: an always-failing prober with `retries = 2` makes
exactly three attempts and surfaces the error. -/
theorem check_website_attempt_bound_witness :
    (checkFrom (fun _ => .error "connection refused") 0 2).attempts = 3 ∧
    (checkFrom (fun _ => .error "connection refused") 0 2).result =
      .error "connection refused" := by
  have h := check_website_attempt_bound (fun _ => .error "connection refused") 2
  exact h.2.2 (fun _ => "connection refused") (fun _ => rfl)

/-- Claim C5: any completed HTTP exchange (any status code `c`, 4xx/5xx
included) immediately ends the retry loop as success carrying `c`; only
transport failures trigger retries, and each of the `n` retries is preceded
by exactly one fixed 100 ms sleep (`sleeps = replicate n 100`). -/
theorem check_website_success_stops_retries (outcome : Nat → Except String Nat)
    (errs : Nat → String) (c n retries : Nat)
    (hfail : ∀ k, k < n → outcome k = .error (errs k))
    (hok : outcome n = .ok c) (hn : n ≤ retries) :
    checkFrom outcome 0 retries =
      { result := .ok c, attempts := n + 1, sleeps := List.replicate n 100 } := by
  have h := checkFrom_first_ok outcome errs c n 0 retries
    (fun k hk => by simpa using hfail k hk) (by simpa using hok) hn
  simpa using h

/-- Witness for C5: a transport failure on attempt 0 then a 503 on attempt
1, with `retries = 3`: the loop stops at attempt 2 as success 503 with one
100 ms sleep. -/
theorem check_website_success_stops_retries_witness :
    checkFrom (fun k => if k = 0 then .error "timeout" else .ok 503) 0 3 =
      { result := .ok 503, attempts := 2, sleeps := [100] } := by
  have h := check_website_success_stops_retries
    (fun k => if k = 0 then .error "timeout" else .ok 503)
    (fun _ => "timeout") 503 1 3
    (fun k hk => by
      have : k = 0 := by omega
      subst this
      rfl)
    (by decide) (by omega)
  simpa using h

set_option maxRecDepth 10000

/-- Claim C6: the claim says the output of `save_results_to_json` always
parses as a JSON array with one object of four fields per result.  It fails
at the empty result set: the emitted string is `]`, which is not a JSON
array at all (a JSON array starts with `[`).  A singleton result set, by
contrast, does produce a single well-formed object with the four fields. -/
theorem save_results_empty_not_json_array :
    save_results_to_json [] = "]" ∧
    save_results_to_json [] ≠ "[]" ∧
    (save_results_to_json []).data = [']'] ∧
    save_results_to_json [⟨"u", .ok 200, 5, 5⟩] =
      "[\x7b\"url\":\"u\", \"status\":200, \"response_time\":\"5ms\"," ++
        " \"timestamp\":\"SystemTime \x7b tv_sec: 0, tv_nsec: 5000000 \x7d\"\x7d]" := by
  refine ⟨rfl, by decide, rfl, ?_⟩
  decide

/-- Claim C7: with every line read succeeding, `read_urls_from_file` keeps
exactly the lines that trim to something non-empty not starting with `#`,
in trimmed form and in file order. -/
theorem read_urls_filters_and_trims (lines : List String) :
    read_urls_from_file (lines.map some) =
      (lines.map String.trim).filter
        (fun t => !t.isEmpty && !t.startsWith "#") := by
  have keep : ∀ ls : List String,
      ls.filterMap keepLine =
        (ls.map String.trim).filter (fun t => !t.isEmpty && !t.startsWith "#") := by
    intro ls
    induction ls with
    | nil => rfl
    | cons s l ih =>
      simp only [List.filterMap_cons, List.map_cons, List.filter_cons, keepLine]
      cases he : s.trim.isEmpty with
      | true => simp [he, ih]
      | false =>
        cases hh : s.trim.startsWith "#" with
        | true => simp [he, hh, ih]
        | false => simp [he, hh, ih]
  have unfolded : read_urls_from_file (lines.map some) =
      lines.filterMap keepLine := by
    rw [read_urls_from_file, List.filterMap_map]
    have hc : ((fun line => Option.bind line keepLine) ∘ some) = keepLine :=
      funext fun s => rfl
    rw [hc]
  rw [unfolded, keep lines]

/-- Unfolding of `check_website` into its loop trace. -/
lemma check_website_def (p : ProbeModel) (url : String) (retries start : Nat) :
    check_website p url retries start =
      { url := url,
        action_status := (checkFrom p.outcome 0 retries).result,
        response_time :=
          ((List.range (checkFrom p.outcome 0 retries).attempts).map p.dur).sum +
            (checkFrom p.outcome 0 retries).sleeps.sum,
        timestamp := start +
          (((List.range (checkFrom p.outcome 0 retries).attempts).map p.dur).sum +
            (checkFrom p.outcome 0 retries).sleeps.sum) } := rfl

/-- Claim C8: `response_time` is the model wall-clock span from the start
of the first attempt to the completion of the final attempt — the sum of
every attempt duration plus every inter-attempt sleep; and for a prober
failing exactly once then succeeding, with `retries ≥ 1`, the result is
success after exactly 2 attempts with elapsed at least the 100 ms retry
delay. -/
theorem check_website_elapsed_covers_all_attempts (p : ProbeModel)
    (url : String) (retries start : Nat) (e : String) (c : Nat)
    (h0 : p.outcome 0 = .error e) (h1 : p.outcome 1 = .ok c)
    (hr : 1 ≤ retries) :
    (check_website p url retries start).response_time =
      ((List.range (checkFrom p.outcome 0 retries).attempts).map p.dur).sum +
        (checkFrom p.outcome 0 retries).sleeps.sum ∧
    (check_website p url retries start).action_status = .ok c ∧
    (checkFrom p.outcome 0 retries).attempts = 2 ∧
    (check_website p url retries start).response_time =
      p.dur 0 + p.dur 1 + 100 ∧
    100 ≤ (check_website p url retries start).response_time := by
  have hcf : checkFrom p.outcome 0 retries =
      { result := .ok c, attempts := 2, sleeps := [100] } := by
    have h := checkFrom_first_ok p.outcome (fun _ => e) c 1 0 retries
      (fun k hk => by
        have hk0 : k = 0 := by omega
        subst hk0
        simpa using h0)
      (by simpa using h1) hr
    simpa using h
  have hrt : (check_website p url retries start).response_time =
      p.dur 0 + p.dur 1 + 100 := by
    rw [check_website_def, hcf]
    simp [List.range_succ]
  refine ⟨rfl, ?_, ?_, hrt, ?_⟩
  · rw [check_website_def, hcf]
  · rw [hcf]
  · omega

/-- Witness for C8: fail once, then succeed with 200; each attempt takes
7 ms, so the elapsed time is 7 + 7 + 100 = 114 ms. -/
theorem check_website_elapsed_witness :
    (check_website
      ⟨fun k => if k = 0 then .error "timeout" else .ok 200, fun _ => 7⟩
      "https://a.test" 1 0).action_status = .ok 200 ∧
    (check_website
      ⟨fun k => if k = 0 then .error "timeout" else .ok 200, fun _ => 7⟩
      "https://a.test" 1 0).response_time = 114 ∧
    100 ≤ (check_website
      ⟨fun k => if k = 0 then .error "timeout" else .ok 200, fun _ => 7⟩
      "https://a.test" 1 0).response_time := by
  have h := check_website_elapsed_covers_all_attempts
    ⟨fun k => if k = 0 then .error "timeout" else .ok 200, fun _ => 7⟩
    "https://a.test" 1 0 "timeout" 200 rfl (by decide) (by omega)
  exact ⟨h.2.1, h.2.2.2.1, h.2.2.2.2⟩

/-- Claim C9: a failed input-file open aborts the run before any probe
runs (the outcome is the open-failure panic and the probe trace is empty,
whatever the prober would have done), while a failed output write aborts
only after every URL has been probed (the probe trace is the full URL
list); in both cases the failure is surfaced as the aborting error, never
as a per-URL result. -/
theorem main_fatal_io (outcome : String → Nat → Except String Nat)
    (dur : String → Nat → Nat) (workers retries : Nat)
    (lines : List (Option String)) (hw : 1 ≤ workers) :
    (∀ o2 d2 r2 wk, mainModel none o2 d2 workers r2 wk =
      (.error "Failed to open file", [])) ∧
    mainModel (some lines) outcome dur workers retries false =
      (.error "Failed to write JSON file", read_urls_from_file lines) ∧
    mainModel (some lines) outcome dur workers retries true =
      (.ok (run_checks outcome dur (read_urls_from_file lines) workers retries),
        read_urls_from_file lines) := by
  obtain ⟨w, rfl⟩ : ∃ w, workers = w + 1 := ⟨workers - 1, by omega⟩
  refine ⟨fun o2 d2 r2 wk => rfl, ?_, ?_⟩
  · simp [mainModel, run_checks_map_url]
  · simp [mainModel, run_checks_map_url]

/-- Witness for C9 at four workers and an empty line list. -/
theorem main_fatal_io_witness :
    mainModel none (fun _ _ => .ok 200) (fun _ _ => 0) 4 0 true =
      (.error "Failed to open file", []) ∧
    mainModel (some []) (fun _ _ => .ok 200) (fun _ _ => 0) 4 0 false =
      (.error "Failed to write JSON file", []) := by
  have h := main_fatal_io (fun _ _ => .ok 200) (fun _ _ => 0) 4 0 [] (by omega)
  exact ⟨h.1 (fun _ _ => .ok 200) (fun _ _ => 0) 0 true, h.2.1⟩

/-- Claim C10: a line whose read fails after the file opened (`none` in
the model, matching the `line.ok()?` in the source) is silently dropped:
the URL list is exactly the one obtained without that line, the run is not
aborted (the function still returns a list), and no error entry is
produced for it. -/
theorem read_urls_skips_failed_lines (pre post : List (Option String)) :
    read_urls_from_file (pre ++ none :: post) =
      read_urls_from_file (pre ++ post) ∧
    read_urls_from_file (pre ++ none :: post) =
      read_urls_from_file pre ++ read_urls_from_file post := by
  simp [read_urls_from_file, List.filterMap_append, List.filterMap_cons]
